import Mathlib

/-!
Shallow embedding of src/server/http.rs (the Body transfer buffer).

The Rust struct Body { pos: usize, data: Vec<u8> } is modelled as a
structure over Nat / List Nat.  The non-blocking endpoint passed to
read_from / write_to (any std::io::Read / std::io::Write) is modelled by
the outcome of the single call the method makes on it:
- a successful read delivers a list of bytes written into data[pos..]
  and returns their count (Ok(n) with n = bytes.length);
- a successful write returns the count n of bytes the endpoint accepted;
- an Err(e) carries only whether e.kind() == WouldBlock, the one
  property the code inspects.
Errors: box_err!(msg) builds Error::Other(msg) (constructor other),
Error::Io(e) is constructor ioFail.
-/

namespace Http

/-- Error type as used by Body: box_err! produces an Other-style error
carrying a message, Error::Io wraps a non-would-block I/O error. -/
inductive Err where
  | other (msg : String)
  | ioFail
deriving DecidableEq

/-- Outcome of the single r.read(&mut data[pos..]) call made by read_from:
Ok(n) with the n bytes the endpoint placed at the start of the slice, or
Err(e) with (e.kind() == WouldBlock). -/
inductive ReadOutcome where
  | ok (bytes : List Nat)
  | err (wouldBlock : Bool)
deriving DecidableEq

/-- Outcome of the single w.write(&self.data[pos..]) call made by write_to:
Ok(n) with n the byte count the endpoint accepted, or Err(e) with
(e.kind() == WouldBlock). -/
inductive WriteOutcome where
  | ok (n : Nat)
  | err (wouldBlock : Bool)
deriving DecidableEq

/-- pub struct Body { pub pos: usize, pub data: Vec<u8> } -/
structure Body where
  pos : Nat
  data : List Nat
deriving DecidableEq

/-- The endpoint writing bytes into data starting at offset pos,
as r.read(&mut self.data[self.pos..]) does before returning Ok(n). -/
def writeAt (data : List Nat) (pos : Nat) (bytes : List Nat) : List Nat :=
  data.take pos ++ bytes ++ data.drop (pos + bytes.length)

/-- Vec::resize(size, v): truncate to size, or extend with copies of v. -/
def listResize (l : List Nat) (size : Nat) (v : Nat) : List Nat :=
  if size ≤ l.length then l.take size
  else l ++ List.replicate (size - l.length) v

/-- Body::read_from. Returns the new Body and the Result<()>. -/
def Body.read_from (b : Body) (r : ReadOutcome) : Body × Except Err Unit :=
  if b.pos ≥ b.data.length then (b, Except.ok ())
  else
    match r with
    | ReadOutcome.ok bytes =>
      if bytes.length = 0 then
        (b, Except.error (Err.other ("remote has closed the connection")))
      else
        ({ pos := b.pos + bytes.length, data := writeAt b.data b.pos bytes },
         Except.ok ())
    | ReadOutcome.err wouldBlock =>
      if wouldBlock then (b, Except.ok ())
      else (b, Except.error Err.ioFail)

/-- Body::write_to. Returns the new Body and the Result<()>. -/
def Body.write_to (b : Body) (w : WriteOutcome) : Body × Except Err Unit :=
  if b.pos ≥ b.data.length then (b, Except.ok ())
  else
    match w with
    | WriteOutcome.ok n =>
      if n = 0 then
        (b, Except.error (Err.other ("can\x27t write ZERO data")))
      else
        ({ b with pos := b.pos + n }, Except.ok ())
    | WriteOutcome.err wouldBlock =>
      if wouldBlock then (b, Except.ok ())
      else (b, Except.error Err.ioFail)

/-- Body::remaining. -/
def Body.remaining (b : Body) : Nat :=
  if b.pos ≥ b.data.length then 0 else b.data.length - b.pos

/-- Body::reset(size): pos = 0; data.resize(size, 0). -/
def Body.reset (b : Body) (size : Nat) : Body :=
  { pos := 0, data := listResize b.data size 0 }

/-- Body::len. -/
def Body.len (b : Body) : Nat := b.data.length

/-- Body::is_empty. -/
def Body.is_empty (b : Body) : Bool := b.data.length = 0

/-- Body::as_bytes. -/
def Body.as_bytes (b : Body) : List Nat := b.data

/-- Default for Body: pos 0, empty data. -/
def Body.default : Body := { pos := 0, data := [] }

/-- One call on the buffer, as a Session issues them: either a read_from
or a write_to, each carrying the endpoint outcome it met. -/
inductive Op where
  | read (r : ReadOutcome)
  | write (w : WriteOutcome)

/-- The state after one call, discarding the returned Result. -/
def Body.step (b : Body) (o : Op) : Body :=
  match o with
  | Op.read r => (b.read_from r).1
  | Op.write w => (b.write_to w).1

/-- The state after a sequence of calls with no intervening reset. -/
def Body.run (b : Body) : List Op → Body
  | [] => b
  | o :: os => Body.run (b.step o) os

/-- Iterated read_from against an endpoint delivering exactly one byte
of value v per call. -/
def iterRead1 (b : Body) (v : Nat) : Nat → Body
  | 0 => b
  | k + 1 => ((iterRead1 b v k).read_from (ReadOutcome.ok [v])).1

/-- A Read endpoint honouring its contract: it reports at most as many
bytes as the slice data[pos..] it was handed can hold. -/
def readBounded (b : Body) : ReadOutcome → Prop
  | ReadOutcome.ok bytes => bytes.length ≤ b.data.length - b.pos
  | ReadOutcome.err _ => True

/-- A Write endpoint honouring its contract: it reports at most as many
bytes written as the slice data[pos..] it was shown holds. -/
def writeBounded (b : Body) : WriteOutcome → Prop
  | WriteOutcome.ok n => n ≤ b.data.length - b.pos
  | WriteOutcome.err _ => True

lemma remaining_pos_iff (b : Body) : 0 < b.remaining ↔ b.pos < b.data.length := by
  unfold Body.remaining
  split <;> omega

lemma remaining_eq_zero_iff (b : Body) : b.remaining = 0 ↔ b.data.length ≤ b.pos := by
  unfold Body.remaining
  split <;> omega

lemma writeAt_length (l : List Nat) (p : Nat) (bs : List Nat)
    (h : p + bs.length ≤ l.length) : (writeAt l p bs).length = l.length := by
  unfold writeAt
  simp only [List.length_append, List.length_take, List.length_drop]
  omega

lemma listResize_length (l : List Nat) (size v : Nat) :
    (listResize l size v).length = size := by
  unfold listResize
  split <;> simp <;> omega

/-- C1: for every Body buffer with remaining() > 0, a read_from call whose
endpoint returns zero bytes with no error fails with the peer-closed error
(message: remote has closed the connection), never a success. -/
theorem read_from_zero_bytes_fails (b : Body) (h : 0 < b.remaining) :
    (b.read_from (ReadOutcome.ok [])).2 =
      Except.error (Err.other ("remote has closed the connection")) ∧
    (b.read_from (ReadOutcome.ok [])).2 ≠ Except.ok () := by
  have hlt : b.pos < b.data.length := (remaining_pos_iff b).mp h
  have hc : ¬ b.pos ≥ b.data.length := by omega
  refine ⟨?_, ?_⟩ <;> simp [Body.read_from, hc]

/-- Witness for C1 at the concrete buffer Body.mk 0 with one pending byte. -/
theorem read_from_zero_bytes_fails_witness :
    0 < (Body.mk 0 [7]).remaining ∧
    ((Body.mk 0 [7]).read_from (ReadOutcome.ok [])).2 =
      Except.error (Err.other ("remote has closed the connection")) :=
  ⟨by decide, (read_from_zero_bytes_fails ⟨0, [7]⟩ (by decide)).1⟩

/-- C2: for every Body buffer with remaining() > 0, a write_to call whose
endpoint accepts zero bytes with no error fails with the zero-write error
(message: can not write ZERO data). -/
theorem write_to_zero_bytes_fails (b : Body) (h : 0 < b.remaining) :
    (b.write_to (WriteOutcome.ok 0)).2 =
      Except.error (Err.other ("can\x27t write ZERO data")) ∧
    (b.write_to (WriteOutcome.ok 0)).2 ≠ Except.ok () := by
  have hlt : b.pos < b.data.length := (remaining_pos_iff b).mp h
  have hc : ¬ b.pos ≥ b.data.length := by omega
  refine ⟨?_, ?_⟩ <;> simp [Body.write_to, hc]

/-- Witness for C2 at the concrete buffer with one pending byte. -/
theorem write_to_zero_bytes_fails_witness :
    0 < (Body.mk 0 [7]).remaining ∧
    ((Body.mk 0 [7]).write_to (WriteOutcome.ok 0)).2 =
      Except.error (Err.other ("can\x27t write ZERO data")) :=
  ⟨by decide, (write_to_zero_bytes_fails ⟨0, [7]⟩ (by decide)).1⟩

/-- C3: a would-block condition during read_from or write_to returns
success, leaves the whole buffer state (in particular pos) unchanged, and
reports no error. -/
theorem would_block_is_success_no_progress (b : Body) :
    b.read_from (ReadOutcome.err true) = (b, Except.ok ()) ∧
    b.write_to (WriteOutcome.err true) = (b, Except.ok ()) := by
  by_cases hc : b.pos ≥ b.data.length <;>
    simp [Body.read_from, Body.write_to, hc]

/-- C4: once remaining() = 0, read_from and write_to are no-ops: whatever
the endpoint would do, they return success at once with pos and data
unchanged. -/
theorem complete_is_noop (b : Body) (h : b.remaining = 0)
    (r : ReadOutcome) (w : WriteOutcome) :
    b.read_from r = (b, Except.ok ()) ∧ b.write_to w = (b, Except.ok ()) := by
  have hge : b.pos ≥ b.data.length := (remaining_eq_zero_iff b).mp h
  simp [Body.read_from, Body.write_to, hge]

/-- Witness for C4 at a fully transferred concrete buffer. -/
theorem complete_is_noop_witness :
    (Body.mk 2 [1, 2]).remaining = 0 ∧
    (Body.mk 2 [1, 2]).read_from (ReadOutcome.ok [9]) =
      (Body.mk 2 [1, 2], Except.ok ()) ∧
    (Body.mk 2 [1, 2]).write_to (WriteOutcome.ok 1) =
      (Body.mk 2 [1, 2], Except.ok ()) :=
  ⟨by decide,
   (complete_is_noop ⟨2, [1, 2]⟩ (by decide) (ReadOutcome.ok [9]) (WriteOutcome.ok 1)).1,
   (complete_is_noop ⟨2, [1, 2]⟩ (by decide) (ReadOutcome.ok [9]) (WriteOutcome.ok 1)).2⟩

/-- C6: reset(size) sets pos to 0 and resizes data to size bytes, so
remaining() right after reset is size, whatever the prior state. -/
theorem reset_then_remaining (b : Body) (size : Nat) :
    (b.reset size).pos = 0 ∧ (b.reset size).data.length = size ∧
    (b.reset size).remaining = size := by
  have hlen : (listResize b.data size 0).length = size := listResize_length _ _ _
  refine ⟨rfl, hlen, ?_⟩
  show (if (b.reset size).pos ≥ (b.reset size).data.length then 0
        else (b.reset size).data.length - (b.reset size).pos) = size
  have hp : (b.reset size).pos = 0 := rfl
  have hl : (b.reset size).data.length = size := hlen
  rw [hp, hl]
  split <;> omega

/-- C7 counterexample: reset does NOT discard prior payload content.
Vec::resize(size, 0) keeps the existing prefix: after resetting the
buffer Body.mk 0 with prior payload byte 1 to size 1, as_bytes still
shows the prior byte 1, not fresh (zero) content. -/
theorem reset_keeps_prior_prefix_cex :
    ((Body.mk 0 [1]).reset 1).as_bytes = [1] ∧
    ((Body.mk 0 [1]).reset 1).as_bytes ≠ List.replicate 1 0 := by
  decide

/-- C7 amended: reset(size) sets pos to 0 and resizes data to exactly
size bytes, but keeps the first min(prior length, size) prior bytes in
place and zero-fills only the extension beyond the prior length; prior
bytes past index size are discarded. -/
theorem reset_resizes_keeping_prefix (b : Body) (size : Nat) :
    (b.reset size).pos = 0 ∧
    (b.reset size).as_bytes =
      b.data.take size ++ List.replicate (size - b.data.length) 0 := by
  refine ⟨rfl, ?_⟩
  show listResize b.data size 0 =
    b.data.take size ++ List.replicate (size - b.data.length) 0
  unfold listResize
  split
  · have h0 : size - b.data.length = 0 := by omega
    simp [h0]
  · have ht : b.data.take size = b.data := List.take_of_length_le (by omega)
    simp [ht]

/-- C8: the invariant pos ≤ data.length is preserved by reset, read_from
and write_to whenever the endpoint reports at most as many bytes as the
slice it was given, and under it remaining() equals data.length - pos. -/
theorem body_invariant_preserved (b : Body) (size : Nat)
    (r : ReadOutcome) (w : WriteOutcome)
    (hinv : b.pos ≤ b.data.length)
    (hr : readBounded b r) (hw : writeBounded b w) :
    (b.reset size).pos ≤ (b.reset size).data.length ∧
    (b.read_from r).1.pos ≤ (b.read_from r).1.data.length ∧
    (b.write_to w).1.pos ≤ (b.write_to w).1.data.length ∧
    b.remaining = b.data.length - b.pos := by
  refine ⟨Nat.zero_le _, ?_, ?_, ?_⟩
  · by_cases hc : b.pos ≥ b.data.length
    · simpa [Body.read_from, hc] using hinv
    · cases r with
      | ok bytes =>
        unfold readBounded at hr
        by_cases hb : bytes.length = 0
        · simpa [Body.read_from, hc, hb] using hinv
        · have hfit : b.pos + bytes.length ≤ b.data.length := by omega
          simp [Body.read_from, hc, hb, writeAt_length b.data b.pos bytes hfit]
          omega
      | err wb =>
        cases wb <;> simpa [Body.read_from, hc] using hinv
  · by_cases hc : b.pos ≥ b.data.length
    · simpa [Body.write_to, hc] using hinv
    · cases w with
      | ok n =>
        unfold writeBounded at hw
        by_cases hn : n = 0
        · simpa [Body.write_to, hc, hn] using hinv
        · simp [Body.write_to, hc, hn]
          omega
      | err wb =>
        cases wb <;> simpa [Body.write_to, hc] using hinv
  · unfold Body.remaining
    split <;> omega

/-- Witness for C8 at a concrete buffer, bounded endpoint outcomes and a
concrete reset size. -/
theorem body_invariant_preserved_witness :
    ((Body.mk 0 [1, 2]).read_from (ReadOutcome.ok [9])).1.pos ≤
      ((Body.mk 0 [1, 2]).read_from (ReadOutcome.ok [9])).1.data.length :=
  (body_invariant_preserved ⟨0, [1, 2]⟩ 3 (ReadOutcome.ok [9]) (WriteOutcome.ok 1)
    (by decide) (by show [9].length ≤ 2 - 0; decide)
    (by show 1 ≤ 2 - 0; decide)).2.1

lemma pos_le_step (b : Body) (o : Op) : b.pos ≤ (b.step o).pos := by
  cases o with
  | read r =>
    show b.pos ≤ (b.read_from r).1.pos
    by_cases hc : b.pos ≥ b.data.length
    · simp [Body.read_from, hc]
    · cases r with
      | ok bytes =>
        by_cases hb : bytes.length = 0 <;> simp [Body.read_from, hc, hb]
      | err wb =>
        cases wb <;> simp [Body.read_from, hc]
  | write w =>
    show b.pos ≤ (b.write_to w).1.pos
    by_cases hc : b.pos ≥ b.data.length
    · simp [Body.write_to, hc]
    · cases w with
      | ok n =>
        by_cases hn : n = 0 <;> simp [Body.write_to, hc, hn]
      | err wb =>
        cases wb <;> simp [Body.write_to, hc]

/-- C9: over any sequence of read_from and write_to calls with no
intervening reset, pos is monotonically non-decreasing. -/
theorem pos_monotone_over_run (b : Body) (ops : List Op) :
    b.pos ≤ (b.run ops).pos := by
  induction ops generalizing b with
  | nil => exact Nat.le_refl _
  | cons o os ih => exact Nat.le_trans (pos_le_step b o) (ih (b.step o))

/-- C10: error atomicity: whenever read_from or write_to returns an
error, the returned Body is exactly the input Body: pos keeps its prior
value and data is untouched by the call itself. -/
theorem error_leaves_state_unchanged (b : Body) (r : ReadOutcome)
    (w : WriteOutcome) :
    (∀ e, (b.read_from r).2 = Except.error e → (b.read_from r).1 = b) ∧
    (∀ e, (b.write_to w).2 = Except.error e → (b.write_to w).1 = b) := by
  constructor
  · intro e he
    by_cases hc : b.pos ≥ b.data.length
    · simp [Body.read_from, hc]
    · cases r with
      | ok bytes =>
        by_cases hb : bytes.length = 0
        · simp [Body.read_from, hc, hb]
        · simp [Body.read_from, hc, hb] at he
      | err wb =>
        cases wb <;> simp [Body.read_from, hc] at he ⊢
  · intro e he
    by_cases hc : b.pos ≥ b.data.length
    · simp [Body.write_to, hc]
    · cases w with
      | ok n =>
        by_cases hn : n = 0
        · simp [Body.write_to, hc, hn]
        · simp [Body.write_to, hc, hn] at he
      | err wb =>
        cases wb <;> simp [Body.write_to, hc] at he ⊢

/-- Witness for C10 at a concrete buffer where both calls error out. -/
theorem error_leaves_state_unchanged_witness :
    ((Body.mk 0 [1]).read_from (ReadOutcome.ok [])).1 = Body.mk 0 [1] ∧
    ((Body.mk 0 [1]).write_to (WriteOutcome.ok 0)).1 = Body.mk 0 [1] :=
  ⟨(error_leaves_state_unchanged ⟨0, [1]⟩ (ReadOutcome.ok []) (WriteOutcome.ok 0)).1
      (Err.other ("remote has closed the connection")) rfl,
   (error_leaves_state_unchanged ⟨0, [1]⟩ (ReadOutcome.ok []) (WriteOutcome.ok 0)).2
      (Err.other ("can\x27t write ZERO data")) rfl⟩

lemma iterRead1_pos_len (n v : Nat) (b : Body) (hpos : b.pos = 0)
    (hlen : b.data.length = n) :
    ∀ k, k ≤ n → (iterRead1 b v k).pos = k ∧ (iterRead1 b v k).data.length = n := by
  intro k
  induction k with
  | zero => intro _; exact ⟨hpos, hlen⟩
  | succ k ih =>
    intro hk
    obtain ⟨hp, hl⟩ := ih (by omega)
    have hc : ¬ (iterRead1 b v k).pos ≥ (iterRead1 b v k).data.length := by omega
    have hfit : (iterRead1 b v k).pos + [v].length ≤ (iterRead1 b v k).data.length := by
      simp
      omega
    show ((iterRead1 b v k).read_from (ReadOutcome.ok [v])).1.pos = k + 1 ∧
      ((iterRead1 b v k).read_from (ReadOutcome.ok [v])).1.data.length = n
    simp [Body.read_from, hc, writeAt_length _ _ _ hfit]
    omega

/-- C5: from a buffer just reset to size n, an endpoint delivering
exactly one byte per call drives pos to n after exactly n calls, each of
those n calls returns success, and remaining() is 0 at the end. -/
theorem read_one_byte_per_call (n v : Nat) (b0 : Body) :
    (iterRead1 (b0.reset n) v n).pos = n ∧
    (iterRead1 (b0.reset n) v n).remaining = 0 ∧
    ∀ k, k < n →
      ((iterRead1 (b0.reset n) v k).read_from (ReadOutcome.ok [v])).2 =
        Except.ok () := by
  have h0 : (b0.reset n).pos = 0 := rfl
  have hl : (b0.reset n).data.length = n := listResize_length _ _ _
  obtain ⟨hp, hlen⟩ := iterRead1_pos_len n v _ h0 hl n (Nat.le_refl n)
  refine ⟨hp, ?_, ?_⟩
  · exact (remaining_eq_zero_iff _).mpr (by omega)
  · intro k hk
    obtain ⟨hp', hl'⟩ := iterRead1_pos_len n v _ h0 hl k (by omega)
    have hc : ¬ (iterRead1 (b0.reset n) v k).pos ≥
        (iterRead1 (b0.reset n) v k).data.length := by omega
    simp [Body.read_from, hc]

/-- Witness for C5 at n = 2 from the default buffer. -/
theorem read_one_byte_per_call_witness :
    (iterRead1 (Body.default.reset 2) 5 2).pos = 2 ∧
    (iterRead1 (Body.default.reset 2) 5 2).remaining = 0 ∧
    ((iterRead1 (Body.default.reset 2) 5 0).read_from (ReadOutcome.ok [5])).2 =
      Except.ok () :=
  ⟨(read_one_byte_per_call 2 5 Body.default).1,
   (read_one_byte_per_call 2 5 Body.default).2.1,
   (read_one_byte_per_call 2 5 Body.default).2.2 0 (by decide)⟩

end Http

